import Mathlib

/-!
Verification development for the smartalbum photo-album editor core:
the pan/zoom clamp engine (`getClampedPosition` in `components/AlbumPage.tsx`),
the layout template catalog (`services/layoutTemplates.ts`), and the page
distributor and page-update handlers (`App.tsx`).

Numbers are modelled as exact rationals (ℚ); the source operates on
JavaScript numbers with the same arithmetic on the inputs of interest.
Strings are modelled as Lean `String`s; JS template literals become
string concatenation.
-/

namespace SmartAlbum

/-- `PhotoTransform` from `types.ts`: `{x, y, scale}`. -/
structure PhotoTransform where
  x : ℚ
  y : ℚ
  scale : ℚ
deriving DecidableEq

/-- `Photo` from `types.ts` (the `transform` field is optional). -/
structure Photo where
  id : String
  url : String
  name : String
  transform : Option PhotoTransform
deriving DecidableEq

/-- `ShapeBounds` from `types.ts`: percentage bounding box of a slot. -/
structure ShapeBounds where
  xPercent : ℚ
  yPercent : ℚ
  wPercent : ℚ
  hPercent : ℚ
deriving DecidableEq

/-- The subset of `React.CSSProperties` fields used by the catalog's
`customWrapperStyle` entries in `layoutTemplates.ts`. Absent fields are
`none`. -/
structure WrapperStyle where
  gridArea : Option String := none
  clipPath : Option String := none
  zIndex : Option Nat := none
  position : Option String := none
  top : Option String := none
  left : Option String := none
  transform : Option String := none
  width : Option String := none
  height : Option String := none
  aspectRatio : Option String := none
  borderRadius : Option String := none
  border : Option String := none
  boxShadow : Option String := none
  overflow : Option String := none
  backgroundColor : Option String := none
  borderTop : Option String := none
  borderLeft : Option String := none
  borderRight : Option String := none
  borderBottom : Option String := none
deriving DecidableEq

/-- `GridStyle` from `types.ts`. The TS `Record<number, _>` maps become
association lists keyed by slot index. -/
structure GridStyle where
  gridTemplateColumns : String
  gridTemplateRows : String
  gridTemplateAreas : String
  isAiGenerated : Option Bool := none
  customWrapperStyle : Option (List (Nat × WrapperStyle)) := none
  shapeBounds : Option (List (Nat × ShapeBounds)) := none
  allowUnsafePan : Option Bool := none
deriving DecidableEq

/-- The `backup` field of `AlbumPageData` in `types.ts`. -/
structure PageBackup where
  photos : List Photo
  layout : Option GridStyle
  isAiCover : Option Bool
  backgroundImage : Option String
deriving DecidableEq

/-- `AlbumPageData` from `types.ts`. -/
structure AlbumPageData where
  id : String
  photos : List Photo
  layout : Option GridStyle
  backgroundImage : Option String
  isAiCover : Option Bool
  backup : Option PageBackup
deriving DecidableEq

/-! ## Shape/Bounds resolver and pan/zoom clamp engine
(`EditablePhoto` in `components/AlbumPage.tsx`, lines 85-134). -/

/-- A pixel rectangle `{x, y, w, h}`. -/
structure RectQ where
  x : ℚ
  y : ℚ
  w : ℚ
  h : ℚ
deriving DecidableEq

/-- Shape/Bounds resolver: the `bounds` computation inside
`getClampedPosition`. With `shapeBounds` present the percentage box is
scaled to container pixels, otherwise the full container is used. -/
def resolveBounds (cw ch : ℚ) (sb : Option ShapeBounds) : RectQ :=
  match sb with
  | some s => ⟨s.xPercent / 100 * cw, s.yPercent / 100 * ch,
               s.wPercent / 100 * cw, s.hPercent / 100 * ch⟩
  | none => ⟨0, 0, cw, ch⟩

/-- `isWide`: the source compares `imgRatio > containerRatio`, i.e.
`nw/nh > cw/ch`. For a measured container `ch ≥ 0`; when `ch = 0` the JS
quotient `cw/ch` is `+∞` and the comparison is false, which the
`0 < ch ∧ _` guard reproduces. -/
def isWideQ (nw nh cw ch : ℚ) : Prop := 0 < ch ∧ cw / ch < nw / nh

instance (nw nh cw ch : ℚ) : Decidable (isWideQ nw nh cw ch) :=
  inferInstanceAs (Decidable (0 < ch ∧ cw / ch < nw / nh))

/-- `baseRenderedW`: cover-fit base width at scale 1. -/
def baseRenderedW (nw nh cw ch : ℚ) : ℚ :=
  if isWideQ nw nh cw ch then ch * (nw / nh) else cw

/-- `baseRenderedH`: cover-fit base height at scale 1. -/
def baseRenderedH (nw nh cw ch : ℚ) : ℚ :=
  if isWideQ nw nh cw ch then ch else cw / (nw / nh)

/-- `Math.max` on rationals (written explicitly so it evaluates in the
kernel). -/
def maxQ (a b : ℚ) : ℚ := if a < b then b else a

/-- `Math.min` on rationals. -/
def minQ (a b : ℚ) : ℚ := if b < a then b else a

/-- One axis of the shape-aware branch of `getClampedPosition`:
`lo`/`size` the resolved bounds coordinate and extent on this axis,
`center` the container center coordinate, `visual` the scaled image
extent, `cand` the candidate offset. -/
def shapeClamp1D (lo size center visual cand : ℚ) : ℚ :=
  if visual < size then (lo + size / 2) - center
  else minQ (maxQ cand ((lo + size) - center - visual / 2)) (lo - center + visual / 2)

/-- One axis of the rectangle branch of `getClampedPosition`:
`maxOff = max(0, visual/2 − container/2)`, result clamped into
`[−maxOff, maxOff]`. -/
def rectClamp1D (containerHalf visualHalf cand : ℚ) : ℚ :=
  maxQ (-(maxQ 0 (visualHalf - containerHalf))) (minQ (maxQ 0 (visualHalf - containerHalf)) cand)

/-- `getClampedPosition` from `components/AlbumPage.tsx` (lines 99-134).
Arguments: natural image size, measured container size, the slot's
optional `shapeBounds`, the template `allowUnsafePan` flag, the candidate
offset `(x, y)` and the current scale. `isLoaded` in the source is
`naturalSize.w > 0 && naturalSize.h > 0 && containerSize.w > 0`. -/
def getClampedPosition (nw nh cw ch : ℚ) (sb : Option ShapeBounds)
    (allowUnsafePan : Bool) (x y currentScale : ℚ) : ℚ × ℚ :=
  if ¬(0 < nw ∧ 0 < nh ∧ 0 < cw) then (x, y)
  else if allowUnsafePan || sb.isSome then
    (shapeClamp1D (resolveBounds cw ch sb).x (resolveBounds cw ch sb).w (cw / 2)
       (baseRenderedW nw nh cw ch * currentScale) x,
     shapeClamp1D (resolveBounds cw ch sb).y (resolveBounds cw ch sb).h (ch / 2)
       (baseRenderedH nw nh cw ch * currentScale) y)
  else
    (rectClamp1D (cw / 2) (baseRenderedW nw nh cw ch * currentScale / 2) x,
     rectClamp1D (ch / 2) (baseRenderedH nw nh cw ch * currentScale / 2) y)

example : getClampedPosition 1200 600 400 300 none false 500 50 1 = (100, 0) := by
  norm_num [getClampedPosition, isWideQ, baseRenderedW, baseRenderedH, rectClamp1D,
    maxQ, minQ, resolveBounds]

example : getClampedPosition 100 100 100 0 none false 10 10 1 = (0, 10) := by
  norm_num [getClampedPosition, isWideQ, baseRenderedW, baseRenderedH, rectClamp1D,
    maxQ, minQ, resolveBounds]

/-! ## Layout template catalog (`services/layoutTemplates.ts`). -/

/-- JavaScript `Array.prototype.join(sep)`, written with structural
recursion so the kernel can evaluate it and proofs can unfold it. -/
def jsJoin (sep : String) : List String → String
  | [] => ""
  | [a] => a
  | a :: b :: rest => a ++ sep ++ jsJoin sep (b :: rest)

/-- The `areas` helper: `rows.map(r => `"r"`).join(' ')`. -/
def areas (rows : List String) : String :=
  jsJoin " " (rows.map fun r => "\"" ++ r ++ "\"")

/-- `LAYOUT_TEMPLATES[1]`. -/
def layouts1 : List GridStyle := [
  { gridTemplateColumns := "1fr", gridTemplateRows := "1fr",
    gridTemplateAreas := "\"img0\"" },
  { gridTemplateColumns := "1fr 4fr 1fr", gridTemplateRows := "1fr 4fr 1fr",
    gridTemplateAreas := "\". . .\" \". img0 .\" \". . .\"" }
]

/-- `LAYOUT_TEMPLATES[2]`. -/
def layouts2 : List GridStyle := [
  { gridTemplateColumns := "1fr", gridTemplateRows := "1fr 1fr",
    gridTemplateAreas := areas ["img0", "img1"] },
  { gridTemplateColumns := "1fr 1fr", gridTemplateRows := "1fr",
    gridTemplateAreas := areas ["img0 img1"] },
  { gridTemplateColumns := "2fr 1fr", gridTemplateRows := "1fr 2fr",
    gridTemplateAreas := areas ["img0 img1", "img0 ."],
    isAiGenerated := some false },
  { gridTemplateColumns := "1.618fr 1fr", gridTemplateRows := "1fr",
    gridTemplateAreas := areas ["img0 img1"] }
]

/-- `LAYOUT_TEMPLATES[3]`. -/
def layouts3 : List GridStyle := [
  { gridTemplateColumns := "1fr 1fr", gridTemplateRows := "1.5fr 1fr",
    gridTemplateAreas := areas ["img0 img0", "img1 img2"] },
  { gridTemplateColumns := "1.5fr 1fr", gridTemplateRows := "1fr 1fr",
    gridTemplateAreas := areas ["img0 img1", "img0 img2"] },
  { gridTemplateColumns := "1fr 1fr 1fr", gridTemplateRows := "1fr",
    gridTemplateAreas := areas ["img0 img1 img2"] },
  { gridTemplateColumns := "1fr 1fr", gridTemplateRows := "1fr 1fr",
    gridTemplateAreas := areas ["img0 img1", "img2 img1"] },
  -- 3 Vertical Parallelograms (Columns)
  { gridTemplateColumns := "1fr", gridTemplateRows := "1fr",
    gridTemplateAreas := "\"img0\"",
    customWrapperStyle := some [
      (0, { gridArea := some "1 / 1 / -1 / -1",
            clipPath := some "polygon(0 0, 40% 0, 25% 100%, 0% 100%)", zIndex := some 1 }),
      (1, { gridArea := some "1 / 1 / -1 / -1",
            clipPath := some "polygon(40.5% 0, 80% 0, 65% 100%, 25.5% 100%)", zIndex := some 2 }),
      (2, { gridArea := some "1 / 1 / -1 / -1",
            clipPath := some "polygon(80.5% 0, 100% 0, 100% 100%, 65.5% 100%)", zIndex := some 3 })],
    shapeBounds := some [
      (0, ⟨0, 0, 40, 100⟩),
      (1, ⟨25.5, 0, 54.5, 100⟩),
      (2, ⟨65.5, 0, 34.5, 100⟩)],
    allowUnsafePan := some true },
  -- 3 Horizontal Parallelograms (Rows)
  { gridTemplateColumns := "1fr", gridTemplateRows := "1fr",
    gridTemplateAreas := "\"img0\"",
    customWrapperStyle := some [
      (0, { gridArea := some "1 / 1 / -1 / -1",
            clipPath := some "polygon(0 0, 100% 0, 80% 33%, 0 33%)", zIndex := some 3 }),
      (1, { gridArea := some "1 / 1 / -1 / -1",
            clipPath := some "polygon(0 33.5%, 80% 33.5%, 100% 66%, 20% 66%)", zIndex := some 2 }),
      (2, { gridArea := some "1 / 1 / -1 / -1",
            clipPath := some "polygon(20% 66.5%, 100% 66.5%, 100% 100%, 0 100%)", zIndex := some 1 })],
    shapeBounds := some [
      (0, ⟨0, 0, 100, 33⟩),
      (1, ⟨0, 33.5, 100, 32.5⟩),
      (2, ⟨0, 66.5, 100, 33.5⟩)],
    allowUnsafePan := some true }
]

/-- `LAYOUT_TEMPLATES[4]`. -/
def layouts4 : List GridStyle := [
  { gridTemplateColumns := "1fr 1fr", gridTemplateRows := "1fr 1fr",
    gridTemplateAreas := areas ["img0 img1", "img2 img3"] },
  { gridTemplateColumns := "2fr 1fr", gridTemplateRows := "1fr 1fr 1fr",
    gridTemplateAreas := areas ["img0 img1", "img0 img2", "img0 img3"] },
  { gridTemplateColumns := "1fr 1fr 1fr", gridTemplateRows := "2fr 1fr",
    gridTemplateAreas := areas ["img0 img0 img0", "img1 img2 img3"] },
  { gridTemplateColumns := "1fr 2fr 1fr", gridTemplateRows := "1fr 1fr",
    gridTemplateAreas := areas ["img0 img1 img2", "img0 img1 img3"] },
  { gridTemplateColumns := "1fr 1fr", gridTemplateRows := "2fr 1fr 1fr",
    gridTemplateAreas := areas ["img0 img1", "img0 img2", "img3 img2"] },
  -- 4-Photo Geometric Mosaic (Solid Parallelograms) - ORIGINAL 0 DEG
  { gridTemplateColumns := "1fr", gridTemplateRows := "1fr",
    gridTemplateAreas := "\"img0\"",
    customWrapperStyle := some [
      (0, { gridArea := some "1 / 1 / -1 / -1",
            clipPath := some "polygon(0% 0%, 28% 0%, 18% 100%, 0% 100%)", zIndex := some 1 }),
      (1, { gridArea := some "1 / 1 / -1 / -1",
            clipPath := some "polygon(28.3% 0%, 53% 0%, 43% 100%, 18.3% 100%)", zIndex := some 2 }),
      (2, { gridArea := some "1 / 1 / -1 / -1",
            clipPath := some "polygon(53.3% 0%, 78% 0%, 68% 100%, 43.3% 100%)", zIndex := some 2 }),
      (3, { gridArea := some "1 / 1 / -1 / -1",
            clipPath := some "polygon(78.3% 0%, 100% 0%, 100% 100%, 68.3% 100%)", zIndex := some 1 })],
    shapeBounds := some [
      (0, ⟨0, 0, 28, 100⟩),
      (1, ⟨18.3, 0, 34.7, 100⟩),
      (2, ⟨43.3, 0, 34.7, 100⟩),
      (3, ⟨68.3, 0, 31.7, 100⟩)],
    allowUnsafePan := some true },
  -- 4-Photo Geometric Mosaic - ROTATED 90 DEG (Horizontal Strips /)
  { gridTemplateColumns := "1fr", gridTemplateRows := "1fr",
    gridTemplateAreas := "\"img0\"",
    customWrapperStyle := some [
      (0, { gridArea := some "1 / 1 / -1 / -1",
            clipPath := some "polygon(0% 0%, 100% 0%, 100% 18%, 0% 28%)", zIndex := some 1 }),
      (1, { gridArea := some "1 / 1 / -1 / -1",
            clipPath := some "polygon(0% 28.3%, 100% 18.3%, 100% 43%, 0% 53%)", zIndex := some 2 }),
      (2, { gridArea := some "1 / 1 / -1 / -1",
            clipPath := some "polygon(0% 53.3%, 100% 43.3%, 100% 68%, 0% 78%)", zIndex := some 2 }),
      (3, { gridArea := some "1 / 1 / -1 / -1",
            clipPath := some "polygon(0% 78.3%, 100% 68.3%, 100% 100%, 0% 100%)", zIndex := some 1 })],
    shapeBounds := some [
      (0, ⟨0, 0, 100, 28⟩),
      (1, ⟨0, 18.3, 100, 34.7⟩),
      (2, ⟨0, 43.3, 100, 34.7⟩),
      (3, ⟨0, 68.3, 100, 31.7⟩)],
    allowUnsafePan := some true },
  -- 4-Photo Geometric Mosaic - ROTATED 180 DEG (Vertical Strips \)
  { gridTemplateColumns := "1fr", gridTemplateRows := "1fr",
    gridTemplateAreas := "\"img0\"",
    customWrapperStyle := some [
      (0, { gridArea := some "1 / 1 / -1 / -1",
            clipPath := some "polygon(0% 0%, 18% 0%, 28% 100%, 0% 100%)", zIndex := some 1 }),
      (1, { gridArea := some "1 / 1 / -1 / -1",
            clipPath := some "polygon(18.3% 0%, 43% 0%, 53% 100%, 28.3% 100%)", zIndex := some 2 }),
      (2, { gridArea := some "1 / 1 / -1 / -1",
            clipPath := some "polygon(43.3% 0%, 68% 0%, 78% 100%, 53.3% 100%)", zIndex := some 2 }),
      (3, { gridArea := some "1 / 1 / -1 / -1",
            clipPath := some "polygon(68.3% 0%, 100% 0%, 100% 100%, 78.3% 100%)", zIndex := some 1 })],
    shapeBounds := some [
      (0, ⟨0, 0, 28, 100⟩),
      (1, ⟨18.3, 0, 34.7, 100⟩),
      (2, ⟨43.3, 0, 34.7, 100⟩),
      (3, ⟨68.3, 0, 31.7, 100⟩)],
    allowUnsafePan := some true },
  -- 4-Photo Geometric Mosaic - ROTATED 270 DEG (Horizontal Strips \)
  { gridTemplateColumns := "1fr", gridTemplateRows := "1fr",
    gridTemplateAreas := "\"img0\"",
    customWrapperStyle := some [
      (0, { gridArea := some "1 / 1 / -1 / -1",
            clipPath := some "polygon(0% 0%, 100% 0%, 100% 28%, 0% 18%)", zIndex := some 1 }),
      (1, { gridArea := some "1 / 1 / -1 / -1",
            clipPath := some "polygon(0% 18.3%, 100% 28.3%, 100% 53%, 0% 43%)", zIndex := some 2 }),
      (2, { gridArea := some "1 / 1 / -1 / -1",
            clipPath := some "polygon(0% 43.3%, 100% 53.3%, 100% 78%, 0% 68%)", zIndex := some 2 }),
      (3, { gridArea := some "1 / 1 / -1 / -1",
            clipPath := some "polygon(0% 68.3%, 100% 78.3%, 100% 100%, 0% 100%)", zIndex := some 1 })],
    shapeBounds := some [
      (0, ⟨0, 0, 100, 28⟩),
      (1, ⟨0, 18.3, 100, 34.7⟩),
      (2, ⟨0, 43.3, 100, 34.7⟩),
      (3, ⟨0, 68.3, 100, 31.7⟩)],
    allowUnsafePan := some true }
]

/-- `LAYOUT_TEMPLATES[5]`. -/
def layouts5 : List GridStyle := [
  { gridTemplateColumns := "1fr 1fr 1fr 1fr", gridTemplateRows := "2fr 1fr",
    gridTemplateAreas := areas ["img0 img0 img1 img2", "img0 img0 img3 img4"] },
  { gridTemplateColumns := "1fr 1fr 1fr", gridTemplateRows := "1fr 1fr",
    gridTemplateAreas := areas ["img0 img0 img1", "img2 img3 img4"] },
  { gridTemplateColumns := "1fr 1fr", gridTemplateRows := "1fr 1fr 1fr",
    gridTemplateAreas := areas ["img0 img1", "img0 img2", "img3 img4"] },
  -- 4 Rectangles + Center Circle Overlay (img4 absolutely positioned)
  { gridTemplateColumns := "1fr 1fr", gridTemplateRows := "1fr 1fr",
    gridTemplateAreas := "\"img0 img1\" \"img2 img3\"",
    customWrapperStyle := some [
      (4, { position := some "absolute", top := some "50%", left := some "50%",
            transform := some "translate(-50%, -50%)", width := some "50%",
            height := some "auto", aspectRatio := some "1 / 1",
            borderRadius := some "50%", zIndex := some 10,
            border := some "4px solid white",
            boxShadow := some "0 4px 15px rgba(0,0,0,0.3)",
            overflow := some "hidden" })] },
  -- 5-Photo Geometric Mosaic
  { gridTemplateColumns := "1fr", gridTemplateRows := "1fr",
    gridTemplateAreas := "\"img0\"",
    customWrapperStyle := some [
      (0, { gridArea := some "1 / 1 / -1 / -1",
            clipPath := some "polygon(0% 0%, 28% 0%, 18% 100%, 0% 100%)", zIndex := some 1 }),
      (1, { gridArea := some "1 / 1 / -1 / -1",
            clipPath := some "polygon(28.3% 0%, 53% 0%, 43% 100%, 18.3% 100%)", zIndex := some 2 }),
      (2, { gridArea := some "1 / 1 / -1 / -1",
            clipPath := some "polygon(53.3% 0%, 78% 0%, 68% 100%, 43.3% 100%)", zIndex := some 2 }),
      (3, { gridArea := some "1 / 1 / -1 / -1",
            clipPath := some "polygon(78.3% 0%, 100% 0%, 100% 49.8%, 73.3% 49.8%)", zIndex := some 1 }),
      (4, { gridArea := some "1 / 1 / -1 / -1",
            clipPath := some "polygon(73.3% 50.2%, 100% 50.2%, 100% 100%, 68.3% 100%)", zIndex := some 1 })],
    shapeBounds := some [
      (0, ⟨0, 0, 28, 100⟩),
      (1, ⟨18.3, 0, 34.7, 100⟩),
      (2, ⟨43.3, 0, 34.7, 100⟩),
      (3, ⟨73.3, 0, 26.7, 49.8⟩),
      (4, ⟨68.3, 50.2, 31.7, 49.8⟩)],
    allowUnsafePan := some true },
  -- Scrapbook Collage Style (Rustic Frames) - CENTERED, 24x24 grid
  { gridTemplateColumns := "repeat(24, 1fr)", gridTemplateRows := "repeat(24, 1fr)",
    gridTemplateAreas := "\".\"",
    customWrapperStyle := some [
      (0, { gridArea := some "4 / 4 / 11 / 12", zIndex := some 2,
            transform := some "rotate(-4deg)", border := some "4px dashed #d4a373",
            boxShadow := some "3px 5px 10px rgba(0,0,0,0.2)",
            backgroundColor := some "#fff" }),
      (1, { gridArea := some "4 / 15 / 11 / 22", zIndex := some 2,
            borderRadius := some "50%", border := some "6px solid #8d6e63",
            boxShadow := some "3px 5px 10px rgba(0,0,0,0.2)",
            backgroundColor := some "#fff" }),
      (2, { gridArea := some "7 / 7 / 19 / 19", zIndex := some 1,
            border := some "8px solid white",
            boxShadow := some "0 4px 25px rgba(0,0,0,0.15)" }),
      (3, { gridArea := some "14 / 4 / 22 / 11", zIndex := some 3,
            transform := some "rotate(-3deg)", backgroundColor := some "white",
            borderTop := some "10px solid white", borderLeft := some "10px solid white",
            borderRight := some "10px solid white", borderBottom := some "45px solid white",
            boxShadow := some "4px 6px 15px rgba(0,0,0,0.25)" }),
      (4, { gridArea := some "15 / 14 / 21 / 22", zIndex := some 2,
            transform := some "rotate(2deg)", border := some "10px ridge #5d4037",
            boxShadow := some "4px 6px 12px rgba(0,0,0,0.3)" })],
    allowUnsafePan := some true }
]

/-- `LAYOUT_TEMPLATES[6]`. -/
def layouts6 : List GridStyle := [
  { gridTemplateColumns := "1fr 1fr", gridTemplateRows := "1fr 1fr 1fr",
    gridTemplateAreas := areas ["img0 img1", "img2 img3", "img4 img5"] },
  { gridTemplateColumns := "1fr 1fr 1fr", gridTemplateRows := "1fr 1fr",
    gridTemplateAreas := areas ["img0 img1 img2", "img3 img4 img5"] },
  { gridTemplateColumns := "1fr 2fr 1fr", gridTemplateRows := "1fr 1fr",
    gridTemplateAreas := areas ["img0 img1 img2", "img3 img1 img4", "img5 img5 img5"] },
  { gridTemplateColumns := "1fr 1fr 1fr", gridTemplateRows := "2fr 1fr",
    gridTemplateAreas := areas ["img0 img0 img1", "img2 img3 img4", "img5 img5 img5"] }
]

/-- `LAYOUT_TEMPLATES`: the `Record<number, GridStyle[]>` catalog keyed by
photo count. Keys other than 1-6 are absent. -/
def LAYOUT_TEMPLATES : Nat → Option (List GridStyle)
  | 1 => some layouts1
  | 2 => some layouts2
  | 3 => some layouts3
  | 4 => some layouts4
  | 5 => some layouts5
  | 6 => some layouts6
  | _ => none

/-! ## Fallback generator (`getFallbackLayout`) and `getLayoutsForCount`. -/

/-- JavaScript `String.prototype.trim`, written with structural list
recursion so the kernel can evaluate it. -/
def jsTrim (s : String) : String :=
  ⟨((s.data.dropWhile Char.isWhitespace).reverse.dropWhile Char.isWhitespace).reverse⟩

/-- `Math.ceil(Math.sqrt(count))`: the least `c` with `count ≤ c * c`,
computed by searching `0, 1, ..., count` (written with `List.find?` so the
kernel can evaluate it; `Nat.sqrt` is not kernel-reducible). -/
def ceilSqrt (n : Nat) : Nat :=
  ((List.range (n + 1)).find? fun c => n ≤ c * c).getD n

/-- The inner column loop of `getFallbackLayout`: given the running
`imgIndex` and the number of cells still to emit in this row, returns the
emitted cell text (each cell followed by a space, as in the source) and
the updated `imgIndex`. Cells past the photo count repeat the last
photo's area name. -/
def fallbackCells (count : Nat) : Nat → Nat → String × Nat
  | imgIndex, 0 => ("", imgIndex)
  | imgIndex, c + 1 =>
    if imgIndex < count then
      ("img" ++ toString imgIndex ++ " " ++ (fallbackCells count (imgIndex + 1) c).1,
       (fallbackCells count (imgIndex + 1) c).2)
    else
      ("img" ++ toString (count - 1) ++ " " ++ (fallbackCells count imgIndex c).1,
       (fallbackCells count imgIndex c).2)

/-- The outer row loop of `getFallbackLayout`: each row is
`('"' + cells).trim() + '"'`. -/
def fallbackRows (count cols : Nat) : Nat → Nat → List String
  | _, 0 => []
  | imgIndex, r + 1 =>
    (jsTrim ("\"" ++ (fallbackCells count imgIndex cols).1) ++ "\"") ::
      fallbackRows count cols (fallbackCells count imgIndex cols).2 r

/-- `getFallbackLayout` from `services/layoutTemplates.ts`. `rows` is
`Math.ceil(count / cols)`; when `count = 0` (the only case with
`cols = 0`) the JS quotient is `NaN` and the row loop body never runs,
modelled here as zero rows. -/
def getFallbackLayout (count : Nat) : GridStyle :=
  let cols := ceilSqrt count
  let rows := if cols = 0 then 0 else (count + cols - 1) / cols
  { gridTemplateColumns := "repeat(" ++ toString cols ++ ", 1fr)",
    gridTemplateRows := "repeat(" ++ toString rows ++ ", 1fr)",
    gridTemplateAreas := jsJoin " " (fallbackRows count cols 0 rows),
    isAiGenerated := some false }

/-- `getLayoutsForCount` from `services/layoutTemplates.ts`:
`[...(LAYOUT_TEMPLATES[count] || []), getFallbackLayout(count)]`. -/
def getLayoutsForCount (count : Nat) : List GridStyle :=
  (LAYOUT_TEMPLATES count).getD [] ++ [getFallbackLayout count]

example : (getFallbackLayout 5).gridTemplateAreas = "\"img0 img1 img2\" \"img3 img4 img4\"" := by
  decide

example : (getFallbackLayout 5).gridTemplateColumns = "repeat(3, 1fr)" := by decide

example : (getFallbackLayout 0).gridTemplateAreas = "" := by decide

example : (getFallbackLayout 2).gridTemplateAreas = "\"img0 img1\"" := by decide

/-! ## Page distributor and page-update handlers (`App.tsx`).
The distribution `useEffect` (lines 200-247) is modelled as a pure
function of the photo list; the two sources of nondeterminism —
`Math.floor(Math.random() * candidates.length)` and `generateId()` — are
passed in as functions `rand` (an arbitrary per-page natural, reduced
modulo the candidate count) and `idg` (per-page id). -/

/-- The transform reset `{ x: 0, y: 0, scale: 1 }` applied to each photo
placed into a page. -/
def resetPhoto (p : Photo) : Photo :=
  { p with transform := some { x := 0, y := 0, scale := 1 } }

/-- Candidate filtering for one page: if the previous page chose a layout
(a non-null, non-empty areas string — JS truthiness) and more than one
template is available, templates with the same `gridTemplateAreas` are
excluded, unless that would leave nothing. -/
def pageCandidates : Option String → List GridStyle → List GridStyle
  | some a, avail =>
    if a ≠ "" ∧ 1 < avail.length then
      if 0 < (avail.filter fun t => t.gridTemplateAreas != a).length then
        avail.filter fun t => t.gridTemplateAreas != a
      else avail
    else avail
  | none, avail => avail

/-- `candidates[Math.floor(Math.random() * candidates.length)]`; on an
empty list the JS index access yields `undefined`, i.e. `none`. -/
def pickLayout (rand : Nat → Nat) (k : Nat) (candidates : List GridStyle) : Option GridStyle :=
  candidates[rand k % candidates.length]?

/-- `if (randomLayout) previousLayoutAreas = randomLayout.gridTemplateAreas`. -/
def nextPrevAreas (prev : Option String) (layout : Option GridStyle) : Option String :=
  match layout with
  | some l => some l.gridTemplateAreas
  | none => prev

/-- The distribution loop of the `useEffect` in `App.tsx` (lines 211-244):
`k` numbers the pages built so far, `prev` is `previousLayoutAreas`,
`cur` is `currentPhotos`, and the last argument the photos still to
place. A page is flushed when `currentPhotos.length === maxPhotosPerPage`
or the last photo was consumed. -/
def distGo (maxP : Nat) (rand : Nat → Nat) (idg : Nat → String) :
    Nat → Option String → List Photo → List Photo → List AlbumPageData
  | _, _, _, [] => []
  | k, prev, cur, p :: rest =>
    if (cur ++ [p]).length = maxP ∨ rest = [] then
      { id := idg k, photos := (cur ++ [p]).map resetPhoto,
        layout := pickLayout rand k
          (pageCandidates prev (getLayoutsForCount (cur ++ [p]).length)),
        backgroundImage := none, isAiCover := none, backup := none } ::
        distGo maxP rand idg (k + 1)
          (nextPrevAreas prev (pickLayout rand k
            (pageCandidates prev (getLayoutsForCount (cur ++ [p]).length))))
          [] rest
    else
      distGo maxP rand idg k prev (cur ++ [p]) rest

/-- One full run of the distribution loop over the photo list. -/
def distribute (maxP : Nat) (rand : Nat → Nat) (idg : Nat → String)
    (photos : List Photo) : List AlbumPageData :=
  distGo maxP rand idg 0 none [] photos

/-- The app view (`view` state in `App.tsx`). -/
inductive ViewKind
  | dashboard
  | editor
deriving DecidableEq

/-- The distribution `useEffect` body as a state transformer on the page
list: it returns early unless the view is the editor, and distributes
only when `photos.length > 0 && pages.length === 0`. -/
def distributionStep (view : ViewKind) (photos : List Photo) (maxP : Nat)
    (rand : Nat → Nat) (idg : Nat → String)
    (pages : List AlbumPageData) : List AlbumPageData :=
  if view ≠ ViewKind.editor then pages
  else if 0 < photos.length ∧ pages.length = 0 then distribute maxP rand idg photos
  else pages

/-- `handleUpdatePageLayout` from `App.tsx` (lines 249-260). -/
def handleUpdatePageLayout (pageId : String) (layout : GridStyle)
    (pages : List AlbumPageData) : List AlbumPageData :=
  pages.map fun p =>
    if p.id = pageId then
      { p with layout := some layout,
               photos := p.photos.map fun ph =>
                 { ph with transform := some { x := 0, y := 0, scale := 1 } } }
    else p

example :
    (distribute 2 (fun _ => 0) (fun k => toString k)
      [⟨"a", "", "", none⟩, ⟨"b", "", "", none⟩, ⟨"c", "", "", none⟩,
       ⟨"d", "", "", none⟩, ⟨"e", "", "", none⟩]).map
      (fun pg => pg.photos.map (·.id)) = [["a", "b"], ["c", "d"], ["e"]] := by decide

example :
    (distribute 2 (fun _ => 0) (fun k => toString k)
      [⟨"a", "", "", none⟩, ⟨"b", "", "", none⟩, ⟨"c", "", "", none⟩,
       ⟨"d", "", "", none⟩]).map
      (fun pg => (pg.layout.map (·.gridTemplateAreas)).getD "?") =
      ["\"img0\" \"img1\"", "\"img0 img1\""] := by decide

/-! ## Specification-side definitions.
These restate parts of the spec's wording, for comparison with the
source-derived definitions above. -/

/-- Spec wording for the fallback grid cell names: cell `k` (row-major)
is named `img k` while `k < count`, and every remaining cell repeats the
last photo's name `img (count-1)`. -/
def specCellName (count k : Nat) : String :=
  if k < count then "img" ++ toString k else "img" ++ toString (count - 1)

/-- Cells `pos, pos+1, ...` of one spec-side fallback row, each followed
by a space as in the source builder. -/
def specCells (count : Nat) : Nat → Nat → String
  | _, 0 => ""
  | pos, c + 1 => specCellName count pos ++ " " ++ specCells count (pos + 1) c

/-- Spec-side fallback row `r`: the row-major cells starting at
`r * cols`, quoted. -/
def specRowStr (count cols r : Nat) : String :=
  jsTrim ("\"" ++ specCells count (r * cols) cols) ++ "\""

/-- Spec-side fallback `gridTemplateAreas`: rows `0 .. rows-1` joined by
spaces. -/
def specAreasStr (count cols rows : Nat) : String :=
  jsJoin " " ((List.range rows).map fun r => specRowStr count cols r)

/-- Splits a character list at every separator character, keeping empty
tokens (the semantics of splitting a `gridTemplateAreas` string at spaces
and quotes). -/
def splitChars (p : Char → Bool) : List Char → List (List Char)
  | [] => [[]]
  | c :: cs =>
    let r := splitChars p cs
    if p c then [] :: r
    else
      match r with
      | [] => [[c]]
      | t :: ts => (c :: t) :: ts

/-- The numeric value of a decimal digit character. -/
def charDigit? (c : Char) : Option Nat :=
  if c.isDigit then some (c.toNat - '0'.toNat) else none

/-- Parses a non-empty all-digit character list as a natural number. -/
def digitsToNat? (cs : List Char) : Option Nat :=
  if cs = [] then none
  else cs.foldl (fun acc c => acc.bind fun a => (charDigit? c).map fun d => a * 10 + d) (some 0)

/-- The slot indices `I` of the area names `imgI` occurring in a
`gridTemplateAreas` string. -/
def areaSlotIndices (s : String) : List Nat :=
  (splitChars (fun c => c = ' ' || c = '"') s.data).filterMap fun t =>
    if t.take 3 = ['i', 'm', 'g'] then digitsToNat? (t.drop 3) else none

/-- The slot keys of a template's `customWrapperStyle` map. -/
def wrapperKeys (t : GridStyle) : List Nat :=
  (t.customWrapperStyle.getD []).map Prod.fst

/-- The slot keys of a template's `shapeBounds` map. -/
def shapeKeys (t : GridStyle) : List Nat :=
  (t.shapeBounds.getD []).map Prod.fst

/-- All slot indices referenced by a template. -/
def slotIndices (t : GridStyle) : List Nat :=
  areaSlotIndices t.gridTemplateAreas ++ wrapperKeys t ++ shapeKeys t

/-- The chosen `gridTemplateAreas` of page `i` of a page list. -/
def pageAreas (pages : List AlbumPageData) (i : Nat) : Option String :=
  (pages[i]?.bind AlbumPageData.layout).map GridStyle.gridTemplateAreas

/-- The photo count of page `i` of a page list. -/
def pageCount (pages : List AlbumPageData) (i : Nat) : Option Nat :=
  pages[i]?.map fun pg => pg.photos.length

/-! ## Theorems -/

/-- C10: at the contract boundary `photoCount = 0`, `getLayoutsForCount 0`
returns exactly one element — the fallback — and `getFallbackLayout 0`
returns without error a grid with `gridTemplateColumns = 'repeat(0, 1fr)'`
and empty `gridTemplateAreas`, referencing no slot at all. -/
theorem c10_zero_count_fallback :
    getLayoutsForCount 0 = [getFallbackLayout 0] ∧
    (getLayoutsForCount 0).length = 1 ∧
    (getFallbackLayout 0).gridTemplateColumns = "repeat(0, 1fr)" ∧
    (getFallbackLayout 0).gridTemplateAreas = "" ∧
    slotIndices (getFallbackLayout 0) = [] := by
  refine ⟨rfl, rfl, by decide, by decide, by decide⟩

/-- C6: for every `n ≥ 1`, `getLayoutsForCount n` is non-empty, its last
element is `getFallbackLayout n`, and it is exactly the curated templates
for `n` (in catalog order) followed by the fallback. -/
theorem c6_layouts_nonempty_fallback_last (n : Nat) (h : 1 ≤ n) :
    getLayoutsForCount n ≠ [] ∧
    (getLayoutsForCount n).getLast? = some (getFallbackLayout n) ∧
    getLayoutsForCount n = (LAYOUT_TEMPLATES n).getD [] ++ [getFallbackLayout n] := by
  refine ⟨by simp [getLayoutsForCount], ?_, rfl⟩
  simp [getLayoutsForCount]

/-- C6 witness at `n = 1`. -/
theorem c6_witness :
    (1 : Nat) ≤ 1 ∧
    (getLayoutsForCount 1 ≠ [] ∧
     (getLayoutsForCount 1).getLast? = some (getFallbackLayout 1) ∧
     getLayoutsForCount 1 = (LAYOUT_TEMPLATES 1).getD [] ++ [getFallbackLayout 1]) :=
  ⟨le_refl 1, c6_layouts_nonempty_fallback_last 1 (le_refl 1)⟩

/-- C8 (as stated) is false: with a loaded 100×100 image, container width
100 and container height 0, the candidate `(10, 10)` at scale 1 is not
returned unchanged — the clamp maps it to `(0, 10)`, because the source's
`isLoaded` guard checks only `naturalW`, `naturalH` and the container
*width*, never the container height. -/
theorem c8_counterexample :
    getClampedPosition 100 100 100 0 none false 10 10 1 ≠ (10, 10) := by
  norm_num [getClampedPosition, isWideQ, baseRenderedW, baseRenderedH, rectClamp1D,
    maxQ, minQ, resolveBounds]

/-- C8 amended: `getClampedPosition` returns the candidate unchanged
precisely when the guard `naturalW > 0 ∧ naturalH > 0 ∧ containerW > 0`
fails (image not loaded, or container width 0); the container height is
not part of the guard. -/
theorem c8_unloaded_returns_candidate (nw nh cw ch : ℚ) (sb : Option ShapeBounds)
    (ap : Bool) (x y s : ℚ) (h : ¬(0 < nw ∧ 0 < nh ∧ 0 < cw)) :
    getClampedPosition nw nh cw ch sb ap x y s = (x, y) := by
  simp [getClampedPosition, h]

/-- C8 witness: an unloaded image (natural width 0) short-circuits. -/
theorem c8_witness :
    ¬((0:ℚ) < 0 ∧ (0:ℚ) < 5 ∧ (0:ℚ) < 5) ∧
    getClampedPosition 0 5 5 5 none false 3 4 2 = (3, 4) := by
  refine ⟨by norm_num, c8_unloaded_returns_candidate 0 5 5 5 none false 3 4 2 (by norm_num)⟩

/-- C7: `handleUpdatePageLayout pageId layout` keeps the page count, sets
the matching page's layout to `layout` and resets every contained photo's
transform to the identity while preserving photo ids, urls, names, order
and count and the page's other fields; pages with a different id are
returned unchanged. -/
theorem c7_handleUpdatePageLayout_spec (pageId : String) (layout : GridStyle)
    (pages : List AlbumPageData) :
    (handleUpdatePageLayout pageId layout pages).length = pages.length ∧
    ∀ (i : Nat) (p q : AlbumPageData), pages[i]? = some p →
      (handleUpdatePageLayout pageId layout pages)[i]? = some q →
      (p.id ≠ pageId → q = p) ∧
      (p.id = pageId →
        q.layout = some layout ∧
        q.photos.map Photo.id = p.photos.map Photo.id ∧
        q.photos.map Photo.url = p.photos.map Photo.url ∧
        q.photos.map Photo.name = p.photos.map Photo.name ∧
        q.photos.length = p.photos.length ∧
        (∀ ph ∈ q.photos, ph.transform = some { x := 0, y := 0, scale := 1 }) ∧
        q.id = p.id ∧ q.backgroundImage = p.backgroundImage ∧
        q.isAiCover = p.isAiCover ∧ q.backup = p.backup) := by
  constructor
  · simp [handleUpdatePageLayout]
  · intro i p q hp hq
    rw [handleUpdatePageLayout, List.getElem?_map, hp] at hq
    injection hq with hq
    subst hq
    dsimp only
    constructor
    · intro hne
      rw [if_neg hne]
    · intro heq
      rw [if_pos heq]
      refine ⟨rfl, ?_, ?_, ?_, ?_, ?_, rfl, rfl, rfl, rfl⟩
      · simp
      · simp
      · simp
      · simp
      · intro ph hph
        simp only [List.mem_map] at hph
        obtain ⟨_, _, rfl⟩ := hph
        rfl

/-- Concrete photo for witnesses. -/
def wPhoto1 : Photo :=
  { id := "ph1", url := "u1", name := "n1", transform := some { x := 3, y := 4, scale := 2 } }

/-- Concrete photo for witnesses. -/
def wPhoto2 : Photo :=
  { id := "ph2", url := "u2", name := "n2", transform := none }

/-- Concrete layout for witnesses. -/
def wLayout : GridStyle :=
  { gridTemplateColumns := "1fr", gridTemplateRows := "1fr 1fr",
    gridTemplateAreas := "\"img0\" \"img1\"" }

/-- Concrete page for witnesses. -/
def wPageA : AlbumPageData :=
  { id := "p1", photos := [wPhoto1, wPhoto2], layout := none,
    backgroundImage := none, isAiCover := none, backup := none }

/-- Concrete page for witnesses. -/
def wPageB : AlbumPageData :=
  { id := "p2", photos := [wPhoto2], layout := none,
    backgroundImage := some "bg", isAiCover := none, backup := none }

/-- The page `wPageA` after `handleUpdatePageLayout "p1" wLayout`. -/
def wPageA' : AlbumPageData :=
  { id := "p1",
    photos := [{ id := "ph1", url := "u1", name := "n1",
                 transform := some { x := 0, y := 0, scale := 1 } },
               { id := "ph2", url := "u2", name := "n2",
                 transform := some { x := 0, y := 0, scale := 1 } }],
    layout := some wLayout, backgroundImage := none, isAiCover := none, backup := none }

/-- C7 witness: applying the layout to the matching concrete page. -/
theorem c7_witness :
    wPageA'.layout = some wLayout ∧ wPageA'.id = wPageA.id ∧
    wPageA'.backgroundImage = wPageA.backgroundImage :=
  let h := ((c7_handleUpdatePageLayout_spec "p1" wLayout [wPageA, wPageB]).2
    0 wPageA wPageA' rfl rfl).2 rfl
  ⟨h.1, h.2.2.2.2.2.2.1, h.2.2.2.2.2.2.2.1⟩

/-- The distribution loop emits at least one page when photos remain. -/
theorem distGo_ne_nil (maxP : Nat) (rand : Nat → Nat) (idg : Nat → String) :
    ∀ (rest cur : List Photo) (k : Nat) (prev : Option String), rest ≠ [] →
      distGo maxP rand idg k prev cur rest ≠ [] := by
  intro rest
  induction rest with
  | nil => intro _ _ _ h; exact absurd rfl h
  | cons p rest' ih =>
    intro cur k prev _
    rw [distGo]
    split
    · exact List.cons_ne_nil _ _
    · rename_i hcond
      exact ih (cur ++ [p]) k prev (fun hnil => hcond (Or.inr hnil))

/-- `distribute` of a non-empty photo list is non-empty. -/
theorem distribute_ne_nil (maxP : Nat) (rand : Nat → Nat) (idg : Nat → String)
    (photos : List Photo) (h : photos ≠ []) :
    distribute maxP rand idg photos ≠ [] :=
  distGo_ne_nil maxP rand idg photos [] 0 none h

/-- C4: the distribution step is a no-op whenever the page list is
non-empty, and running it twice (with possibly different random draws)
gives the same pages as running it once. -/
theorem c4_distribution_step_idempotent (view : ViewKind) (photos : List Photo)
    (maxP : Nat) (r1 r2 : Nat → Nat) (g1 g2 : Nat → String)
    (pages : List AlbumPageData) :
    (pages ≠ [] → distributionStep view photos maxP r1 g1 pages = pages) ∧
    distributionStep view photos maxP r2 g2 (distributionStep view photos maxP r1 g1 pages) =
      distributionStep view photos maxP r1 g1 pages := by
  constructor
  · intro hne
    unfold distributionStep
    split_ifs with h1 h2
    · rfl
    · exact absurd (List.length_eq_zero.mp h2.2) hne
    · rfl
  · by_cases hv : view = ViewKind.editor
    · subst hv
      simp only [distributionStep, ne_eq, not_true_eq_false, if_false]
      by_cases hp : 0 < photos.length ∧ pages.length = 0
      · rw [if_pos hp]
        have hne : distribute maxP r1 g1 photos ≠ [] :=
          distribute_ne_nil maxP r1 g1 photos (List.length_pos.mp hp.1)
        rw [if_neg]
        intro hc
        exact hne (List.length_eq_zero.mp hc.2)
      · rw [if_neg hp, if_neg hp]
    · simp [distributionStep, hv]

/-- C4 witness: with a non-empty page list the step returns it unchanged. -/
theorem c4_witness :
    distributionStep ViewKind.editor [wPhoto1] 3 (fun _ => 0) (fun _ => "k") [wPageA] =
      [wPageA] :=
  (c4_distribution_step_idempotent ViewKind.editor [wPhoto1] 3 (fun _ => 0) (fun _ => 0)
    (fun _ => "k") (fun _ => "k") [wPageA]).1 (List.cons_ne_nil _ _)

/-- C9: for every photo count `k` with a catalog entry, every template in
that entry references exactly the contiguous slot range `0..k-1` across
its `gridTemplateAreas` names, `customWrapperStyle` keys and
`shapeBounds` keys. -/
theorem c9_slot_indices_contiguous (k : Nat) (ts : List GridStyle)
    (h : LAYOUT_TEMPLATES k = some ts) :
    ∀ t ∈ ts, (slotIndices t).toFinset = Finset.range k := by
  rcases k with _ | _ | _ | _ | _ | _ | _ | n
  · exact Option.noConfusion h
  · injection h with h; subst h; decide
  · injection h with h; subst h; decide
  · injection h with h; subst h; decide
  · injection h with h; subst h; decide
  · injection h with h; subst h; decide
  · injection h with h; subst h; decide
  · exact Option.noConfusion h

/-- The full-bleed single-photo template (first entry of the catalog for
count 1), restated for the C9 witness. -/
def wFullBleed : GridStyle :=
  { gridTemplateColumns := "1fr", gridTemplateRows := "1fr",
    gridTemplateAreas := "\"img0\"" }

/-- C9 witness at count 1. -/
theorem c9_witness : (slotIndices wFullBleed).toFinset = Finset.range 1 :=
  c9_slot_indices_contiguous 1 layouts1 rfl wFullBleed (by decide)

/-- `List.find?` over `range' s n` returns the first index satisfying the
predicate: the result satisfies it and nothing from `s` up to it does. -/
theorem find?_range'_least (p : Nat → Bool) :
    ∀ (n s c : Nat), (List.range' s n).find? p = some c →
      p c = true ∧ ∀ b, s ≤ b → b < c → p b = false := by
  intro n
  induction n with
  | zero =>
    intro s c h
    rw [show List.range' s 0 = [] from rfl] at h
    exact Option.noConfusion h
  | succ m ih =>
    intro s c h
    rw [List.range'_succ, List.find?_cons] at h
    cases hp : p s with
    | true =>
      rw [hp] at h
      injection h with h
      subst h
      exact ⟨hp, fun b hsb hbc => absurd (Nat.lt_of_le_of_lt hsb hbc) (Nat.lt_irrefl _)⟩
    | false =>
      rw [hp] at h
      obtain ⟨hc, hmin⟩ := ih (s + 1) c h
      refine ⟨hc, fun b hsb hbc => ?_⟩
      rcases Nat.eq_or_lt_of_le hsb with rfl | hlt
      · exact hp
      · exact hmin b hlt hbc

/-- `ceilSqrt n` is exactly `⌈√n⌉`: it is large enough to square past `n`
and every smaller value is not. -/
theorem ceilSqrt_spec (n : Nat) :
    n ≤ ceilSqrt n * ceilSqrt n ∧ ∀ b, b < ceilSqrt n → b * b < n := by
  have hnn : n ≤ n * n := by nlinarith
  have hex : ∃ x ∈ List.range (n + 1), (decide (n ≤ x * x)) = true :=
    ⟨n, List.mem_range.mpr (by omega), decide_eq_true hnn⟩
  obtain ⟨c, hc⟩ := Option.isSome_iff_exists.mp (List.find?_isSome.mpr hex)
  have hval : ceilSqrt n = c := by
    unfold ceilSqrt
    rw [hc]
    rfl
  rw [List.range_eq_range'] at hc
  obtain ⟨hpc, hmin⟩ := find?_range'_least _ (n + 1) 0 c hc
  rw [hval]
  refine ⟨of_decide_eq_true hpc, fun b hb => ?_⟩
  have := hmin b (Nat.zero_le b) hb
  have hnb : ¬(n ≤ b * b) := of_decide_eq_false this
  omega

/-- For `count ≥ 1` the fallback grid has at least one column. -/
theorem ceilSqrt_pos (n : Nat) (h : 1 ≤ n) : 0 < ceilSqrt n := by
  rcases Nat.eq_zero_or_pos (ceilSqrt n) with h0 | h0
  · have := (ceilSqrt_spec n).1
    rw [h0] at this
    omega
  · exact h0

/-- The inner cell loop tracks exactly the spec's row-major cell names:
started at a saturated index `min pos count`, it emits the names
`specCellName count pos`, `specCellName count (pos+1)`, ... and leaves
the index saturated at `min (pos + cells) count`. -/
theorem fallbackCells_min (count : Nat) :
    ∀ (cells pos : Nat),
      fallbackCells count (min pos count) cells =
        (specCells count pos cells, min (pos + cells) count) := by
  intro cells
  induction cells with
  | zero =>
    intro pos
    rw [fallbackCells, specCells, Nat.add_zero]
  | succ m ih =>
    intro pos
    by_cases hp : pos < count
    · have h1 : min pos count = pos := by omega
      have ih' := ih (pos + 1)
      rw [show min (pos + 1) count = pos + 1 from by omega] at ih'
      rw [h1, fallbackCells, if_pos hp, ih', specCells, specCellName, if_pos hp,
        show pos + 1 + m = pos + (m + 1) from by omega]
    · have h1 : min pos count = count := by omega
      have ih' := ih (pos + 1)
      rw [show min (pos + 1) count = count from by omega] at ih'
      rw [h1, fallbackCells, if_neg (by omega : ¬ count < count), ih',
        specCells, specCellName, if_neg hp,
        show pos + 1 + m = pos + (m + 1) from by omega]

/-- The outer row loop produces exactly the spec's rows `r, r+1, ...`. -/
theorem fallbackRows_min (count cols : Nat) :
    ∀ (nRows r : Nat),
      fallbackRows count cols (min (r * cols) count) nRows =
        (List.range nRows).map (fun j => specRowStr count cols (r + j)) := by
  intro nRows
  induction nRows with
  | zero => intro r; rw [fallbackRows]; rfl
  | succ m ih =>
    intro r
    rw [fallbackRows]
    simp only [fallbackCells_min count cols (r * cols)]
    rw [show r * cols + cols = (r + 1) * cols from by ring, ih (r + 1),
      List.range_succ_eq_map]
    simp only [List.map_cons, List.map_map]
    rw [show specRowStr count cols (r + 0) =
        jsTrim ("\"" ++ specCells count (r * cols) cols) ++ "\"" from by
      rw [Nat.add_zero]; rfl]
    congr 1
    exact List.map_congr_left fun a _ => by
      simp only [Function.comp]
      rw [show r + 1 + a = r + (a + 1) from by omega]

/-- The generated `gridTemplateAreas` matches the spec's description of
the fallback policy. -/
theorem getFallbackLayout_areas_spec (count : Nat) (h : 1 ≤ count) :
    (getFallbackLayout count).gridTemplateAreas =
      specAreasStr count (ceilSqrt count)
        ((count + ceilSqrt count - 1) / ceilSqrt count) := by
  have hcols : ¬(ceilSqrt count = 0) := by
    have := ceilSqrt_pos count h
    omega
  unfold getFallbackLayout
  simp only [if_neg hcols]
  rw [show (0 : Nat) = min (0 * ceilSqrt count) count from by simp,
    fallbackRows_min count (ceilSqrt count)]
  unfold specAreasStr
  congr 1
  exact List.map_congr_left fun a _ => by rw [Nat.zero_add]

/-- C5: for every `count ≥ 1` the fallback grid has `⌈√count⌉` columns,
`⌈count / cols⌉` rows, and its `gridTemplateAreas` names cell `k`
(row-major) `img k` while `k < count` and every remaining cell
`img (count-1)`; in particular `getFallbackLayout 5` is the 3×2 grid
`'"img0 img1 img2" "img3 img4 img4"'`. -/
theorem c5_fallback_layout_spec (count : Nat) (h : 1 ≤ count) :
    (getFallbackLayout count).gridTemplateColumns =
      "repeat(" ++ toString (ceilSqrt count) ++ ", 1fr)" ∧
    count ≤ ceilSqrt count * ceilSqrt count ∧
    (ceilSqrt count - 1) * (ceilSqrt count - 1) < count ∧
    (getFallbackLayout count).gridTemplateRows =
      "repeat(" ++ toString ((count + ceilSqrt count - 1) / ceilSqrt count) ++ ", 1fr)" ∧
    count ≤ ceilSqrt count * ((count + ceilSqrt count - 1) / ceilSqrt count) ∧
    ceilSqrt count * (((count + ceilSqrt count - 1) / ceilSqrt count) - 1) < count ∧
    (getFallbackLayout count).gridTemplateAreas =
      specAreasStr count (ceilSqrt count)
        ((count + ceilSqrt count - 1) / ceilSqrt count) ∧
    (getFallbackLayout 5).gridTemplateColumns = "repeat(3, 1fr)" ∧
    (getFallbackLayout 5).gridTemplateRows = "repeat(2, 1fr)" ∧
    (getFallbackLayout 5).gridTemplateAreas = "\"img0 img1 img2\" \"img3 img4 img4\"" := by
  have hc := ceilSqrt_pos count h
  have hcols : ¬(ceilSqrt count = 0) := by omega
  obtain ⟨hsq, hmin⟩ := ceilSqrt_spec count
  refine ⟨?_, hsq, ?_, ?_, ?_, ?_, getFallbackLayout_areas_spec count h,
    by decide, by decide, by decide⟩
  · unfold getFallbackLayout
    rfl
  · exact hmin (ceilSqrt count - 1) (by omega)
  · unfold getFallbackLayout
    simp only [if_neg hcols]
  · -- count ≤ cols * rows for rows = ceil-division
    have hdm := Nat.div_add_mod (count + ceilSqrt count - 1) (ceilSqrt count)
    have hr := Nat.mod_lt (count + ceilSqrt count - 1) hc
    generalize hX : ceilSqrt count * ((count + ceilSqrt count - 1) / ceilSqrt count) = X at *
    omega
  · -- cols * (rows - 1) < count
    have hdm := Nat.div_add_mod (count + ceilSqrt count - 1) (ceilSqrt count)
    have hr := Nat.mod_lt (count + ceilSqrt count - 1) hc
    have hq1 : 1 ≤ (count + ceilSqrt count - 1) / ceilSqrt count := by
      rw [Nat.le_div_iff_mul_le hc]
      omega
    obtain ⟨q', hq'⟩ : ∃ q', (count + ceilSqrt count - 1) / ceilSqrt count = q' + 1 :=
      ⟨(count + ceilSqrt count - 1) / ceilSqrt count - 1, by omega⟩
    rw [hq'] at hdm ⊢
    rw [show ceilSqrt count * (q' + 1) = ceilSqrt count * q' + ceilSqrt count from by ring] at hdm
    simp only [Nat.add_sub_cancel]
    generalize hX : ceilSqrt count * q' = X at *
    omega

/-- C5 witness at `count = 5`. -/
theorem c5_witness :
    (getFallbackLayout 5).gridTemplateColumns = "repeat(3, 1fr)" ∧
    (getFallbackLayout 5).gridTemplateRows = "repeat(2, 1fr)" ∧
    (getFallbackLayout 5).gridTemplateAreas = "\"img0 img1 img2\" \"img3 img4 img4\"" :=
  let h := c5_fallback_layout_spec 5 (by decide)
  ⟨h.2.2.2.2.2.2.2.1, h.2.2.2.2.2.2.2.2.1, h.2.2.2.2.2.2.2.2.2⟩

/-- The distribution loop concatenates back to the input photo list (with
transforms reset): nothing is dropped, duplicated or reordered. -/
theorem distGo_flatten (maxP : Nat) (rand : Nat → Nat) (idg : Nat → String) :
    ∀ (rest cur : List Photo) (k : Nat) (prev : Option String), rest ≠ [] →
      ((distGo maxP rand idg k prev cur rest).map AlbumPageData.photos).flatten =
        (cur ++ rest).map resetPhoto := by
  intro rest
  induction rest with
  | nil => intro _ _ _ h; exact absurd rfl h
  | cons p rest' ih =>
    intro cur k prev _
    rw [distGo]
    split
    · by_cases hr : rest' = []
      · subst hr
        rw [show ∀ k' prev', distGo maxP rand idg k' prev' [] [] = [] from
          fun _ _ => rfl]
        simp
      · rw [List.map_cons, List.flatten_cons, ih [] (k + 1) _ hr]
        simp [List.append_assoc]
    · rename_i hcond
      have hr : rest' ≠ [] := fun hh => hcond (Or.inr hh)
      rw [ih (cur ++ [p]) k prev hr]
      simp [List.append_assoc]

/-- Every page the loop builds holds between 1 and `maxP` photos
(provided the running batch is below `maxP`, as it always is). -/
theorem distGo_size_bounds (maxP : Nat) (rand : Nat → Nat) (idg : Nat → String)
    (hm : 1 ≤ maxP) :
    ∀ (rest cur : List Photo) (k : Nat) (prev : Option String), cur.length < maxP →
      ∀ pg ∈ distGo maxP rand idg k prev cur rest,
        1 ≤ pg.photos.length ∧ pg.photos.length ≤ maxP := by
  intro rest
  induction rest with
  | nil =>
    intro cur k prev _ pg hpg
    rw [show distGo maxP rand idg k prev cur [] = [] from rfl] at hpg
    exact absurd hpg (List.not_mem_nil pg)
  | cons p rest' ih =>
    intro cur k prev hc pg hpg
    rw [distGo] at hpg
    split at hpg
    · rcases List.mem_cons.mp hpg with rfl | hpg
      · constructor
        · simp [resetPhoto]
        · simp only [List.length_map, List.length_append, List.length_cons,
            List.length_nil]
          omega
      · exact ih [] (k + 1) _ (by simpa using hm) pg hpg
    · rename_i hcond
      have hlen : ¬((cur ++ [p]).length = maxP) := fun hh => hcond (Or.inl hh)
      refine ih (cur ++ [p]) k prev ?_ pg hpg
      simp only [List.length_append, List.length_cons, List.length_nil] at hlen ⊢
      omega

/-- Every page except possibly the last holds exactly `maxP` photos. -/
theorem distGo_dropLast_sizes (maxP : Nat) (rand : Nat → Nat) (idg : Nat → String)
    (hm : 1 ≤ maxP) :
    ∀ (rest cur : List Photo) (k : Nat) (prev : Option String), cur.length < maxP →
      ∀ pg ∈ (distGo maxP rand idg k prev cur rest).dropLast,
        pg.photos.length = maxP := by
  intro rest
  induction rest with
  | nil =>
    intro cur k prev _ pg hpg
    rw [show distGo maxP rand idg k prev cur [] = [] from rfl] at hpg
    exact absurd hpg (List.not_mem_nil pg)
  | cons p rest' ih =>
    intro cur k prev hc pg hpg
    rw [distGo] at hpg
    split at hpg
    · rename_i hcond
      by_cases hr : rest' = []
      · subst hr
        rw [show ∀ k' prev', distGo maxP rand idg k' prev' [] [] = [] from
          fun _ _ => rfl] at hpg
        exact absurd hpg (List.not_mem_nil pg)
      · have htail := distGo_ne_nil maxP rand idg rest' [] (k + 1)
          (nextPrevAreas prev (pickLayout rand k
            (pageCandidates prev (getLayoutsForCount (cur ++ [p]).length)))) hr
        rw [List.dropLast_cons_of_ne_nil htail] at hpg
        rcases List.mem_cons.mp hpg with rfl | hpg
        · have hlen : (cur ++ [p]).length = maxP := by
            rcases hcond with h | h
            · exact h
            · exact absurd h hr
          simpa using hlen
        · exact ih [] (k + 1) _ (by simpa using hm) pg hpg
    · rename_i hcond
      have hlen : ¬((cur ++ [p]).length = maxP) := fun hh => hcond (Or.inl hh)
      refine ih (cur ++ [p]) k prev ?_ pg hpg
      simp only [List.length_append, List.length_cons, List.length_nil] at hlen ⊢
      omega

/-- Ceiling-division arithmetic: if `N` splits into `L - 1` full groups of
`m` plus a final group of size `last ∈ [1, m]`, then
`L = ⌈N / m⌉ = (N + m - 1) / m`. -/
theorem ceil_div_of_decomp (m L last N : Nat) (hm : 1 ≤ m) (h1 : 1 ≤ last)
    (h2 : last ≤ m) (hL : 1 ≤ L) (hN : N = m * (L - 1) + last) :
    (N + m - 1) / m = L := by
  obtain ⟨L', rfl⟩ : ∃ L', L = L' + 1 := ⟨L - 1, by omega⟩
  have hN' : N = m * L' + last := by simpa using hN
  have hsplit : N + m - 1 = (last - 1) + (L' + 1) * m := by
    have e1 : (L' + 1) * m = m * L' + m := by ring
    rw [e1]
    omega
  rw [hsplit, Nat.add_mul_div_right _ _ (by omega : 0 < m),
    Nat.div_eq_of_lt (by omega : last - 1 < m)]
  omega

/-- C2: for `maxPhotosPerPage ≥ 1` and a non-empty photo list of length
`N`, the distributor yields exactly `⌈N / maxP⌉` pages; every page except
possibly the last has exactly `maxP` photos and the last has the
remainder; the concatenation of the pages' photo lists is the input list
in order with every transform reset to the identity. -/
theorem c2_distribute_partition (maxP : Nat) (rand : Nat → Nat) (idg : Nat → String)
    (photos : List Photo) (hm : 1 ≤ maxP) (hne : photos ≠ []) :
    (distribute maxP rand idg photos).length =
      (photos.length + maxP - 1) / maxP ∧
    (∀ pg ∈ (distribute maxP rand idg photos).dropLast,
      pg.photos.length = maxP) ∧
    (∀ pg, (distribute maxP rand idg photos).getLast? = some pg →
      pg.photos.length =
        photos.length - maxP * ((distribute maxP rand idg photos).length - 1)) ∧
    ((distribute maxP rand idg photos).map AlbumPageData.photos).flatten =
      photos.map resetPhoto ∧
    (∀ pg ∈ distribute maxP rand idg photos, ∀ ph ∈ pg.photos,
      ph.transform = some { x := 0, y := 0, scale := 1 }) := by
  have hflat0 := distGo_flatten maxP rand idg photos [] 0 none hne
  rw [List.nil_append] at hflat0
  have hflat : ((distribute maxP rand idg photos).map AlbumPageData.photos).flatten =
      photos.map resetPhoto := hflat0
  have hPne : distribute maxP rand idg photos ≠ [] :=
    distribute_ne_nil maxP rand idg photos hne
  have hdrop0 := distGo_dropLast_sizes maxP rand idg hm photos [] 0 none
    (by simpa using hm)
  have hdrop : ∀ pg ∈ (distribute maxP rand idg photos).dropLast,
      pg.photos.length = maxP := hdrop0
  have hbounds0 := distGo_size_bounds maxP rand idg hm photos [] 0 none
    (by simpa using hm)
  have hbounds : ∀ pg ∈ distribute maxP rand idg photos,
      1 ≤ pg.photos.length ∧ pg.photos.length ≤ maxP := hbounds0
  -- total photo count is preserved
  have hsum : ((distribute maxP rand idg photos).map
      (fun pg => pg.photos.length)).sum = photos.length := by
    have := congrArg List.length hflat
    rw [List.length_flatten, List.length_map, List.map_map] at this
    simpa [Function.comp] using this
  -- decompose the sizes into the non-last pages plus the last page
  have hlastmem := List.getLast_mem hPne
  have hdecomp : photos.length =
      maxP * ((distribute maxP rand idg photos).length - 1) +
        ((distribute maxP rand idg photos).getLast hPne).photos.length := by
    have hsplit := List.dropLast_append_getLast hPne
    have : ((distribute maxP rand idg photos).map (fun pg => pg.photos.length)).sum =
        ((distribute maxP rand idg photos).dropLast.map
          (fun pg => pg.photos.length)).sum +
          ((distribute maxP rand idg photos).getLast hPne).photos.length := by
      conv_lhs => rw [← hsplit]
      rw [List.map_append, List.sum_append]
      simp
    have hrepl : (distribute maxP rand idg photos).dropLast.map
        (fun pg => pg.photos.length) =
        List.replicate ((distribute maxP rand idg photos).length - 1) maxP := by
      rw [List.eq_replicate]
      constructor
      · rw [List.length_map, List.length_dropLast]
      · intro b hb
        obtain ⟨pg, hpg, rfl⟩ := List.mem_map.mp hb
        exact hdrop pg hpg
    rw [hrepl, List.sum_replicate, smul_eq_mul,
      Nat.mul_comm ((distribute maxP rand idg photos).length - 1) maxP] at this
    omega
  have hlastsz : 1 ≤ ((distribute maxP rand idg photos).getLast hPne).photos.length ∧
      ((distribute maxP rand idg photos).getLast hPne).photos.length ≤ maxP :=
    hbounds _ hlastmem
  refine ⟨?_, hdrop, ?_, hflat, ?_⟩
  · exact (ceil_div_of_decomp maxP (distribute maxP rand idg photos).length
      ((distribute maxP rand idg photos).getLast hPne).photos.length photos.length
      hm hlastsz.1 hlastsz.2 (List.length_pos.mpr hPne) hdecomp).symm
  · intro pg hpg
    rw [List.getLast?_eq_getLast _ hPne] at hpg
    have hpg' := Option.some.inj hpg
    subst hpg'
    generalize hX : maxP * ((distribute maxP rand idg photos).length - 1) = X at *
    omega
  · intro pg hpg ph hph
    have hmem : ph ∈ ((distribute maxP rand idg photos).map AlbumPageData.photos).flatten :=
      List.mem_flatten.mpr ⟨pg.photos, List.mem_map_of_mem _ hpg, hph⟩
    rw [hflat] at hmem
    obtain ⟨p0, _, rfl⟩ := List.mem_map.mp hmem
    rfl

/-- C2 witness: 3 photos at 2 per page give `⌈3/2⌉ = 2` pages whose
photos concatenate back to the input with identity transforms. -/
theorem c2_witness :
    (distribute 2 (fun _ => 0) (fun k => toString k)
      [wPhoto1, wPhoto2, wPhoto1]).length = (3 + 2 - 1) / 2 ∧
    ((distribute 2 (fun _ => 0) (fun k => toString k)
      [wPhoto1, wPhoto2, wPhoto1]).map AlbumPageData.photos).flatten =
      [wPhoto1, wPhoto2, wPhoto1].map resetPhoto :=
  let h := c2_distribute_partition 2 (fun _ => 0) (fun k => toString k)
    [wPhoto1, wPhoto2, wPhoto1] (by decide) (List.cons_ne_nil _ _)
  ⟨h.1, h.2.2.2.1⟩

/-! ## The no-immediate-repeat property of the distributor (C3). -/

/-- A page avoids the previous page's areas signature: whenever the
previous signature exists (and, per JS truthiness, is non-empty), the
catalog for this page's photo count has at least two candidates and at
least one alternative differs, the chosen layout differs. -/
def avoidsPrev (prev : Option String) (pg : AlbumPageData) : Prop :=
  ∀ a, prev = some a → a ≠ "" →
    2 ≤ (getLayoutsForCount pg.photos.length).length →
    (∃ t ∈ getLayoutsForCount pg.photos.length, t.gridTemplateAreas ≠ a) →
    ∀ l, pg.layout = some l → l.gridTemplateAreas ≠ a

/-- Every page in the list avoids its predecessor's areas signature,
threading `previousLayoutAreas` exactly as the loop does. -/
def chainOk : Option String → List AlbumPageData → Prop
  | _, [] => True
  | prev, pg :: rest => avoidsPrev prev pg ∧ chainOk (nextPrevAreas prev pg.layout) rest

/-- The random pick from the filtered candidates avoids the previous
areas signature whenever an alternative exists. -/
theorem pickLayout_avoids (rand : Nat → Nat) (k : Nat) (a : String)
    (avail : List GridStyle) (hne : a ≠ "") (h2 : 2 ≤ avail.length)
    (hex : ∃ t ∈ avail, t.gridTemplateAreas ≠ a) (l : GridStyle)
    (hl : pickLayout rand k (pageCandidates (some a) avail) = some l) :
    l.gridTemplateAreas ≠ a := by
  obtain ⟨t, ht, hta⟩ := hex
  have htf : t ∈ avail.filter fun t => t.gridTemplateAreas != a :=
    List.mem_filter.mpr ⟨ht, bne_iff_ne.mpr hta⟩
  have hflen : 0 < (avail.filter fun t => t.gridTemplateAreas != a).length :=
    List.length_pos.mpr (fun hnil => by rw [hnil] at htf; exact List.not_mem_nil t htf)
  rw [pageCandidates] at hl
  rw [if_pos ⟨hne, by omega⟩, if_pos hflen] at hl
  have hlmem := List.getElem?_mem hl
  exact bne_iff_ne.mp (List.mem_filter.mp hlmem).2

/-- Every page the loop emits carries a chosen layout drawn from the
catalog for its own photo count, and holds at least one photo. -/
theorem distGo_layout_mem (maxP : Nat) (rand : Nat → Nat) (idg : Nat → String) :
    ∀ (rest cur : List Photo) (k : Nat) (prev : Option String),
      ∀ pg ∈ distGo maxP rand idg k prev cur rest,
        1 ≤ pg.photos.length ∧
        ∃ l, pg.layout = some l ∧ l ∈ getLayoutsForCount pg.photos.length := by
  intro rest
  induction rest with
  | nil =>
    intro cur k prev pg hpg
    rw [show distGo maxP rand idg k prev cur [] = [] from rfl] at hpg
    exact absurd hpg (List.not_mem_nil pg)
  | cons p rest' ih =>
    intro cur k prev pg hpg
    rw [distGo] at hpg
    split at hpg
    · rcases List.mem_cons.mp hpg with rfl | hpg
      · constructor
        · simp [resetPhoto]
        · have hlen : (List.map resetPhoto (cur ++ [p])).length = (cur ++ [p]).length :=
            List.length_map _ _
          have hcand : 0 < (pageCandidates prev
              (getLayoutsForCount (cur ++ [p]).length)).length := by
            have hav : getLayoutsForCount (cur ++ [p]).length ≠ [] := by
              simp [getLayoutsForCount]
            cases prev with
            | none =>
              rw [pageCandidates]
              exact List.length_pos.mpr hav
            | some a =>
              rw [pageCandidates]
              split
              · split
                · assumption
                · exact List.length_pos.mpr hav
              · exact List.length_pos.mpr hav
          have hidx : rand k % (pageCandidates prev
              (getLayoutsForCount (cur ++ [p]).length)).length <
              (pageCandidates prev (getLayoutsForCount (cur ++ [p]).length)).length :=
            Nat.mod_lt _ hcand
          obtain ⟨l, hl⟩ : ∃ l, pickLayout rand k (pageCandidates prev
              (getLayoutsForCount (cur ++ [p]).length)) = some l := by
            rw [pickLayout, List.getElem?_eq_getElem hidx]
            exact ⟨_, rfl⟩
          refine ⟨l, hl, ?_⟩
          · rw [pickLayout] at hl
            have hmem := List.getElem?_mem hl
            have hsub : ∀ x ∈ pageCandidates prev
                (getLayoutsForCount (cur ++ [p]).length),
                x ∈ getLayoutsForCount (cur ++ [p]).length := by
              intro x hx
              cases prev with
              | none =>
                rw [pageCandidates] at hx
                exact hx
              | some a =>
                rw [pageCandidates] at hx
                split at hx
                · split at hx
                  · exact (List.mem_filter.mp hx).1
                  · exact hx
                · exact hx
            have := hsub _ hmem
            simpa [hlen] using this
      · exact ih [] (k + 1) _ pg hpg
    · exact ih (cur ++ [p]) k prev pg hpg

/-- The distribution loop satisfies the chained no-repeat property. -/
theorem distGo_chainOk (maxP : Nat) (rand : Nat → Nat) (idg : Nat → String) :
    ∀ (rest cur : List Photo) (k : Nat) (prev : Option String),
      chainOk prev (distGo maxP rand idg k prev cur rest) := by
  intro rest
  induction rest with
  | nil =>
    intro cur k prev
    rw [show distGo maxP rand idg k prev cur [] = [] from rfl]
    trivial
  | cons p rest' ih =>
    intro cur k prev
    rw [distGo]
    split
    · refine ⟨?_, ?_⟩
      · intro a ha hne h2 hex l hl
        subst ha
        have hlen : (List.map resetPhoto (cur ++ [p])).length = (cur ++ [p]).length :=
          List.length_map _ _
        simp only [hlen] at h2 hex
        exact pickLayout_avoids rand k a _ hne h2 hex l hl
      · exact ih [] (k + 1) _
    · exact ih (cur ++ [p]) k prev

/-- In a `chainOk` list, every page at `i+1` avoids the areas signature
chosen at `i`. -/
theorem chainOk_adjacent :
    ∀ (pages : List AlbumPageData) (prev : Option String), chainOk prev pages →
      ∀ (i : Nat) (pgP pgC : AlbumPageData), pages[i]? = some pgP →
        pages[i + 1]? = some pgC →
        ∀ lp, pgP.layout = some lp → avoidsPrev (some lp.gridTemplateAreas) pgC := by
  intro pages
  induction pages with
  | nil =>
    intro prev _ i pgP pgC h
    rw [show (([] : List AlbumPageData))[i]? = none from by simp] at h
    exact absurd h (Option.noConfusion)
  | cons pg rest ih =>
    intro prev hch i pgP pgC hp hc lp hlp
    cases i with
    | zero =>
      rw [List.getElem?_cons_zero] at hp
      injection hp with hp
      subst hp
      rw [List.getElem?_cons_succ] at hc
      cases rest with
      | nil =>
        rw [show (([] : List AlbumPageData))[0]? = none from rfl] at hc
        exact absurd hc (Option.noConfusion)
      | cons pg2 rest2 =>
        rw [List.getElem?_cons_zero] at hc
        injection hc with hc
        subst hc
        have h2 := hch.2.1
        rw [hlp] at h2
        exact h2
    | succ j =>
      rw [List.getElem?_cons_succ] at hp hc
      exact ih (nextPrevAreas prev pg.layout) hch.2 j pgP pgC hp hc lp hlp

/-- Joining a non-empty list is at least as long as its head. -/
theorem jsJoin_cons_length (sep a : String) (l : List String) :
    a.length ≤ (jsJoin sep (a :: l)).length := by
  cases l with
  | nil => rw [jsJoin]
  | cons b rest =>
    rw [jsJoin, String.length_append, String.length_append]
    omega

/-- The fallback areas string for a positive count is non-empty (it
contains at least one quoted row). -/
theorem fallback_areas_ne_empty (n : Nat) (h : 1 ≤ n) :
    (getFallbackLayout n).gridTemplateAreas ≠ "" := by
  have hc := ceilSqrt_pos n h
  have hcols : ¬(ceilSqrt n = 0) := by omega
  have hrows : 1 ≤ (n + ceilSqrt n - 1) / ceilSqrt n := by
    rw [Nat.le_div_iff_mul_le hc]
    omega
  obtain ⟨r', hr'⟩ : ∃ r', (n + ceilSqrt n - 1) / ceilSqrt n = r' + 1 :=
    ⟨(n + ceilSqrt n - 1) / ceilSqrt n - 1, by omega⟩
  unfold getFallbackLayout
  simp only [if_neg hcols, hr']
  rw [fallbackRows]
  intro hcontra
  have h1 := jsJoin_cons_length " "
    (jsTrim ("\"" ++ (fallbackCells n 0 (ceilSqrt n)).1) ++ "\"")
    (fallbackRows n (ceilSqrt n) (fallbackCells n 0 (ceilSqrt n)).2 r')
  rw [hcontra, String.length_append] at h1
  have h2 : ("" : String).length = 0 := rfl
  have h3 : ("\"" : String).length = 1 := rfl
  omega

/-- Every template the catalog can hand to a page with at least one photo
has a non-empty `gridTemplateAreas` (so the threaded
`previousLayoutAreas` is never the falsy empty string). -/
theorem getLayoutsForCount_areas_ne_empty (n : Nat) (h : 1 ≤ n) :
    ∀ t ∈ getLayoutsForCount n, t.gridTemplateAreas ≠ "" := by
  intro t ht
  rw [getLayoutsForCount] at ht
  rcases List.mem_append.mp ht with hcur | hfb
  · rcases n with _ | _ | _ | _ | _ | _ | _ | m
    · omega
    · exact (by decide : ∀ x ∈ layouts1, x.gridTemplateAreas ≠ "") t hcur
    · exact (by decide : ∀ x ∈ layouts2, x.gridTemplateAreas ≠ "") t hcur
    · exact (by decide : ∀ x ∈ layouts3, x.gridTemplateAreas ≠ "") t hcur
    · exact (by decide : ∀ x ∈ layouts4, x.gridTemplateAreas ≠ "") t hcur
    · exact (by decide : ∀ x ∈ layouts5, x.gridTemplateAreas ≠ "") t hcur
    · exact (by decide : ∀ x ∈ layouts6, x.gridTemplateAreas ≠ "") t hcur
    · exact absurd hcur (List.not_mem_nil t)
  · rw [List.mem_singleton.mp hfb]
    exact fallback_areas_ne_empty n h

/-- C3: in one distributor run, for every choice of random draws and
every page at index `i+1`, if the catalog for that page's photo count has
at least two candidates and at least one differs from the areas chosen at
index `i`, then the chosen areas at `i+1` differ from those at `i`. -/
theorem c3_no_immediate_repeat (maxP : Nat) (rand : Nat → Nat) (idg : Nat → String)
    (photos : List Photo) (i : Nat) (pgP pgC : AlbumPageData) (lp lc : GridStyle)
    (hp : (distribute maxP rand idg photos)[i]? = some pgP)
    (hc : (distribute maxP rand idg photos)[i + 1]? = some pgC)
    (hlp : pgP.layout = some lp) (hlc : pgC.layout = some lc)
    (h2 : 2 ≤ (getLayoutsForCount pgC.photos.length).length)
    (hex : ∃ t ∈ getLayoutsForCount pgC.photos.length,
      t.gridTemplateAreas ≠ lp.gridTemplateAreas) :
    lc.gridTemplateAreas ≠ lp.gridTemplateAreas := by
  have hchain : chainOk none (distribute maxP rand idg photos) :=
    distGo_chainOk maxP rand idg photos [] 0 none
  have hadj := chainOk_adjacent (distribute maxP rand idg photos) none hchain
    i pgP pgC hp hc lp hlp
  have hPmem : pgP ∈ distribute maxP rand idg photos := List.getElem?_mem hp
  obtain ⟨hn1, l', hl', hmem'⟩ :=
    distGo_layout_mem maxP rand idg photos [] 0 none pgP hPmem
  have heq : l' = lp := by
    rw [hlp] at hl'
    exact (Option.some.inj hl').symm
  rw [heq] at hmem'
  have hane : lp.gridTemplateAreas ≠ "" :=
    getLayoutsForCount_areas_ne_empty pgP.photos.length hn1 lp hmem'
  exact hadj lp.gridTemplateAreas rfl hane h2 hex lc hlc

/-- The "Horizontal Split" template for two photos (first catalog entry),
restated for the C3 witness. -/
def wHSplit : GridStyle :=
  { gridTemplateColumns := "1fr", gridTemplateRows := "1fr 1fr",
    gridTemplateAreas := "\"img0\" \"img1\"" }

/-- The "Vertical Split" template for two photos (second catalog entry),
restated for the C3 witness. -/
def wVSplit : GridStyle :=
  { gridTemplateColumns := "1fr 1fr", gridTemplateRows := "1fr",
    gridTemplateAreas := "\"img0 img1\"" }

/-- First page of the concrete witness distribution run. -/
def wDistPage0 : AlbumPageData :=
  { id := "0",
    photos := [{ id := "ph1", url := "u1", name := "n1",
                 transform := some { x := 0, y := 0, scale := 1 } },
               { id := "ph2", url := "u2", name := "n2",
                 transform := some { x := 0, y := 0, scale := 1 } }],
    layout := some wHSplit, backgroundImage := none, isAiCover := none, backup := none }

/-- Second page of the concrete witness distribution run. -/
def wDistPage1 : AlbumPageData :=
  { id := "1",
    photos := [{ id := "ph1", url := "u1", name := "n1",
                 transform := some { x := 0, y := 0, scale := 1 } },
               { id := "ph2", url := "u2", name := "n2",
                 transform := some { x := 0, y := 0, scale := 1 } }],
    layout := some wVSplit, backgroundImage := none, isAiCover := none, backup := none }

/-- C3 witness: with four photos at two per page and all random draws 0,
page 1 avoids page 0's areas signature. -/
theorem c3_witness : wVSplit.gridTemplateAreas ≠ wHSplit.gridTemplateAreas :=
  c3_no_immediate_repeat 2 (fun _ => 0) (fun k => toString k)
    [wPhoto1, wPhoto2, wPhoto1, wPhoto2] 0 wDistPage0 wDistPage1 wHSplit wVSplit
    (by decide) (by decide) rfl rfl (by decide) (by decide)

/-! ## The pan/zoom clamp invariant (C1). -/

theorem le_maxQ_left (a b : ℚ) : a ≤ maxQ a b := by
  unfold maxQ
  split_ifs <;> linarith

theorem le_maxQ_right (a b : ℚ) : b ≤ maxQ a b := by
  unfold maxQ
  split_ifs <;> linarith

theorem maxQ_le (a b c : ℚ) (h1 : a ≤ c) (h2 : b ≤ c) : maxQ a b ≤ c := by
  unfold maxQ
  split_ifs <;> linarith

theorem minQ_le_left (a b : ℚ) : minQ a b ≤ a := by
  unfold minQ
  split_ifs <;> linarith

theorem minQ_le_right (a b : ℚ) : minQ a b ≤ b := by
  unfold minQ
  split_ifs <;> linarith

theorem le_minQ (a b c : ℚ) (h1 : c ≤ a) (h2 : c ≤ b) : c ≤ minQ a b := by
  unfold minQ
  split_ifs <;> linarith

/-- The shape-aware axis clamp: when the scaled image is at least as wide
as the bounds, the clamped offset keeps both bounds edges covered; when
it is strictly narrower, the image is centered exactly on the bounds. -/
theorem shapeClamp1D_spec (lo size center visual cand : ℚ) :
    (size ≤ visual →
      center + shapeClamp1D lo size center visual cand - visual / 2 ≤ lo ∧
      lo + size ≤ center + shapeClamp1D lo size center visual cand + visual / 2) ∧
    (visual < size →
      center + shapeClamp1D lo size center visual cand = lo + size / 2) := by
  constructor
  · intro hvs
    unfold shapeClamp1D
    rw [if_neg (not_lt.mpr hvs)]
    have hupper : minQ (maxQ cand ((lo + size) - center - visual / 2))
        (lo - center + visual / 2) ≤ lo - center + visual / 2 := minQ_le_right _ _
    have hlower : (lo + size) - center - visual / 2 ≤
        minQ (maxQ cand ((lo + size) - center - visual / 2))
          (lo - center + visual / 2) :=
      le_minQ _ _ _ (le_maxQ_right _ _) (by linarith)
    constructor <;> linarith
  · intro hlt
    unfold shapeClamp1D
    rw [if_pos hlt]
    ring

/-- The rectangle axis clamp: with cover-fit and scale ≥ 1 the scaled
image spans the container, and the clamped offset keeps both container
edges covered. -/
theorem rectClamp1D_spec (containerHalf visualHalf cand : ℚ)
    (h : containerHalf ≤ visualHalf) :
    containerHalf + rectClamp1D containerHalf visualHalf cand - visualHalf ≤ 0 ∧
    containerHalf + containerHalf ≤
      containerHalf + rectClamp1D containerHalf visualHalf cand + visualHalf := by
  unfold rectClamp1D
  have hm : maxQ 0 (visualHalf - containerHalf) = visualHalf - containerHalf := by
    unfold maxQ
    split_ifs <;> linarith
  rw [hm]
  have hupper : rectClamp1D containerHalf visualHalf cand ≤ visualHalf - containerHalf := by
    unfold rectClamp1D
    rw [hm]
    exact maxQ_le _ _ _ (by linarith) (minQ_le_left _ _)
  have hlower : -(visualHalf - containerHalf) ≤
      maxQ (-(visualHalf - containerHalf))
        (minQ (visualHalf - containerHalf) cand) := le_maxQ_left _ _
  unfold rectClamp1D at hupper
  rw [hm] at hupper
  constructor <;> linarith

/-- Cover-fit: the base render width is at least the container width. -/
theorem baseRenderedW_ge (nw nh cw ch : ℚ) (hnw : 0 < nw) (hnh : 0 < nh)
    (hcw : 0 < cw) : cw ≤ baseRenderedW nw nh cw ch := by
  unfold baseRenderedW
  split_ifs with hw
  · obtain ⟨hch0, hlt⟩ := hw
    have h1 : cw / ch * ch < nw / nh * ch := mul_lt_mul_of_pos_right hlt hch0
    rw [div_mul_cancel₀ _ (ne_of_gt hch0)] at h1
    have h2 : nw / nh * ch = ch * (nw / nh) := mul_comm _ _
    linarith
  · exact le_refl cw

/-- The base render width is positive. -/
theorem baseRenderedW_pos (nw nh cw ch : ℚ) (hnw : 0 < nw) (hnh : 0 < nh)
    (hcw : 0 < cw) : 0 < baseRenderedW nw nh cw ch :=
  lt_of_lt_of_le hcw (baseRenderedW_ge nw nh cw ch hnw hnh hcw)

/-- Cover-fit: the base render height is at least the container height. -/
theorem baseRenderedH_ge (nw nh cw ch : ℚ) (hnw : 0 < nw) (hnh : 0 < nh)
    (hcw : 0 < cw) (hch : 0 ≤ ch) : ch ≤ baseRenderedH nw nh cw ch := by
  unfold baseRenderedH
  split_ifs with hw
  · exact le_refl ch
  · rcases eq_or_lt_of_le hch with hch0 | hch0
    · rw [← hch0]
      positivity
    · have hle : nw / nh ≤ cw / ch := not_lt.mp fun hlt => hw ⟨hch0, hlt⟩
      rw [le_div_iff (div_pos hnw hnh)]
      have h1 : ch * (nw / nh) ≤ ch * (cw / ch) :=
        mul_le_mul_of_nonneg_left hle (le_of_lt hch0)
      have h2 : ch * (cw / ch) = cw := by
        rw [mul_comm, div_mul_cancel₀ _ (ne_of_gt hch0)]
      linarith

/-- The base render height is positive. -/
theorem baseRenderedH_pos (nw nh cw ch : ℚ) (hnw : 0 < nw) (hnh : 0 < nh)
    (hcw : 0 < cw) : 0 < baseRenderedH nw nh cw ch := by
  unfold baseRenderedH
  split_ifs with hw
  · exact hw.1
  · positivity

/-- C1: for a loaded image, measured container, scale in `[1, 5]` and any
candidate offset, the clamped position keeps the scaled image's extent
covering the resolved target box on each axis, or, when the scaled extent
is strictly smaller than the target on that axis (shape-aware degenerate
case), centers the image exactly on the target box on that axis. -/
theorem c1_clamp_covers_or_centers (nw nh cw ch x y s : ℚ) (sb : Option ShapeBounds)
    (ap : Bool) (hnw : 0 < nw) (hnh : 0 < nh) (hcw : 0 < cw) (hch : 0 ≤ ch)
    (hs1 : 1 ≤ s) (hs5 : s ≤ 5) :
    ((cw / 2 + (getClampedPosition nw nh cw ch sb ap x y s).1 -
        baseRenderedW nw nh cw ch * s / 2 ≤ (resolveBounds cw ch sb).x ∧
      (resolveBounds cw ch sb).x + (resolveBounds cw ch sb).w ≤
        cw / 2 + (getClampedPosition nw nh cw ch sb ap x y s).1 +
          baseRenderedW nw nh cw ch * s / 2) ∨
     (baseRenderedW nw nh cw ch * s < (resolveBounds cw ch sb).w ∧
      cw / 2 + (getClampedPosition nw nh cw ch sb ap x y s).1 =
        (resolveBounds cw ch sb).x + (resolveBounds cw ch sb).w / 2)) ∧
    ((ch / 2 + (getClampedPosition nw nh cw ch sb ap x y s).2 -
        baseRenderedH nw nh cw ch * s / 2 ≤ (resolveBounds cw ch sb).y ∧
      (resolveBounds cw ch sb).y + (resolveBounds cw ch sb).h ≤
        ch / 2 + (getClampedPosition nw nh cw ch sb ap x y s).2 +
          baseRenderedH nw nh cw ch * s / 2) ∨
     (baseRenderedH nw nh cw ch * s < (resolveBounds cw ch sb).h ∧
      ch / 2 + (getClampedPosition nw nh cw ch sb ap x y s).2 =
        (resolveBounds cw ch sb).y + (resolveBounds cw ch sb).h / 2)) := by
  have hbwpos := baseRenderedW_pos nw nh cw ch hnw hnh hcw
  have hbhpos := baseRenderedH_pos nw nh cw ch hnw hnh hcw
  have hvw : cw ≤ baseRenderedW nw nh cw ch * s := by
    have h1 := baseRenderedW_ge nw nh cw ch hnw hnh hcw
    nlinarith
  have hvh : ch ≤ baseRenderedH nw nh cw ch * s := by
    have h1 := baseRenderedH_ge nw nh cw ch hnw hnh hcw hch
    nlinarith
  unfold getClampedPosition
  rw [if_neg (not_not_intro ⟨hnw, hnh, hcw⟩)]
  by_cases hmode : (ap || sb.isSome) = true
  · rw [if_pos hmode]
    constructor
    · by_cases hlt : baseRenderedW nw nh cw ch * s < (resolveBounds cw ch sb).w
      · exact Or.inr ⟨hlt, by
          have := (shapeClamp1D_spec (resolveBounds cw ch sb).x (resolveBounds cw ch sb).w
            (cw / 2) (baseRenderedW nw nh cw ch * s) x).2 hlt
          linarith⟩
      · exact Or.inl ((shapeClamp1D_spec (resolveBounds cw ch sb).x
          (resolveBounds cw ch sb).w (cw / 2) (baseRenderedW nw nh cw ch * s) x).1
          (not_lt.mp hlt))
    · by_cases hlt : baseRenderedH nw nh cw ch * s < (resolveBounds cw ch sb).h
      · exact Or.inr ⟨hlt, by
          have := (shapeClamp1D_spec (resolveBounds cw ch sb).y (resolveBounds cw ch sb).h
            (ch / 2) (baseRenderedH nw nh cw ch * s) y).2 hlt
          linarith⟩
      · exact Or.inl ((shapeClamp1D_spec (resolveBounds cw ch sb).y
          (resolveBounds cw ch sb).h (ch / 2) (baseRenderedH nw nh cw ch * s) y).1
          (not_lt.mp hlt))
  · rw [if_neg hmode]
    have hap : ap = false := by
      cases hsb : sb.isSome <;> cases hap : ap <;> simp [hap, hsb] at hmode ⊢
    have hsb : sb = none := by
      cases hsbv : sb with
      | none => rfl
      | some v => rw [hsbv] at hmode; simp [hap] at hmode
    subst hsb
    constructor
    · refine Or.inl ?_
      have hrect := rectClamp1D_spec (cw / 2) (baseRenderedW nw nh cw ch * s / 2) x
        (by linarith)
      simp only [resolveBounds]
      constructor <;> linarith [hrect.1, hrect.2]
    · refine Or.inl ?_
      have hrect := rectClamp1D_spec (ch / 2) (baseRenderedH nw nh cw ch * s / 2) y
        (by linarith)
      simp only [resolveBounds]
      constructor <;> linarith [hrect.1, hrect.2]

/-- C1 witness: 1200×600 image in a 400×300 rectangular slot at scale 1
with candidate (500, 50). -/
theorem c1_witness :
    ((400 / 2 + (getClampedPosition 1200 600 400 300 none false 500 50 1).1 -
        baseRenderedW 1200 600 400 300 * 1 / 2 ≤ (resolveBounds 400 300 none).x ∧
      (resolveBounds 400 300 none).x + (resolveBounds 400 300 none).w ≤
        400 / 2 + (getClampedPosition 1200 600 400 300 none false 500 50 1).1 +
          baseRenderedW 1200 600 400 300 * 1 / 2) ∨
     (baseRenderedW 1200 600 400 300 * 1 < (resolveBounds 400 300 none).w ∧
      400 / 2 + (getClampedPosition 1200 600 400 300 none false 500 50 1).1 =
        (resolveBounds 400 300 none).x + (resolveBounds 400 300 none).w / 2)) ∧
    ((300 / 2 + (getClampedPosition 1200 600 400 300 none false 500 50 1).2 -
        baseRenderedH 1200 600 400 300 * 1 / 2 ≤ (resolveBounds 400 300 none).y ∧
      (resolveBounds 400 300 none).y + (resolveBounds 400 300 none).h ≤
        300 / 2 + (getClampedPosition 1200 600 400 300 none false 500 50 1).2 +
          baseRenderedH 1200 600 400 300 * 1 / 2) ∨
     (baseRenderedH 1200 600 400 300 * 1 < (resolveBounds 400 300 none).h ∧
      300 / 2 + (getClampedPosition 1200 600 400 300 none false 500 50 1).2 =
        (resolveBounds 400 300 none).y + (resolveBounds 400 300 none).h / 2)) :=
  c1_clamp_covers_or_centers 1200 600 400 300 500 50 1 none false
    (by norm_num) (by norm_num) (by norm_num) (by norm_num) (by norm_num) (by norm_num)

end SmartAlbum
